import Mathlib

/-!
Shallow embedding of the Ecommerce_FastAPI_MongoDB backend.

The MongoDB collections (`User`, `Admin`, `Product`, `Cart`, `Order`) are
modelled as lists of records inside a `DB` state; `find_one` on a filter
becomes `List.find?`, `delete_one` removes the first match, and
`update_one(..., upsert=True)` replaces the first match or appends.

Python exceptions are modelled by `Except PyError`: `PyError.httpExc`
carries a raised `HTTPException` (status, detail) and `PyError.unhandled`
carries an exception (such as `KeyError`) that no handler catches, which
FastAPI surfaces as a plain 500 response.  Crucially, FastAPI's
`HTTPException` is a subclass of `Exception`, so a `try ... except
Exception as e: raise HTTPException(500, str(e))` block re-wraps even an
intentionally raised 401/400 `HTTPException` into a 500; the embedding
reproduces that with `wrap500`, using starlette's
`HTTPException.__str__ = f"{status_code}: {detail}"` for `str(e)`.

Prices are `int | float` in `model.py`; every claim under study uses
integer prices, so prices and amounts are embedded as `Int`.  Argon2
password hashing is abstracted away: a stored credential is identified
with the unique password that verifies against it, so
`CryptContext.verify` becomes string equality.  JWT signing is likewise
abstracted: a request token is either `invalid` (decoding raises
`JWTError`: bad signature, malformed, expired) or a decoded payload whose
`email` / `role` entries are each "key absent", "present but null", or a
string value — exactly the observable outcomes of `jwt.decode` followed
by `payload["email"]` / `payload["role"]`.
-/

/-- HTTP error value: `fastapi.HTTPException(status_code, detail)`. -/
structure HTTPError where
  status : Nat
  detail : String
  deriving Repr, DecidableEq

/-- Outcome of a Python handler that escapes with an exception. -/
inductive PyError where
  /-- An `HTTPException` raised and not re-caught: FastAPI answers with its status. -/
  | httpExc (e : HTTPError)
  /-- A non-HTTP exception (e.g. `KeyError`) that no `except` catches: FastAPI answers 500. -/
  | unhandled (name : String)
  deriving Repr, DecidableEq

/-- Starlette `HTTPException.__str__`: `f"{status_code}: {detail}"`. -/
def httpExcStr (e : HTTPError) : String :=
  Nat.repr e.status ++ ": " ++ e.detail

/-- The `except Exception as e: raise HTTPException(status_code=500, detail=str(e))`
pattern applied to a previously raised `HTTPException e`. -/
def wrap500 (e : HTTPError) : HTTPError :=
  ⟨500, httpExcStr e⟩

/-- Product document (`model.py` `Product`), as stored in the `Product` collection. -/
structure Product where
  id : String
  name : String
  description : String
  price : Int
  quantity : Int
  deriving Repr, DecidableEq

/-- Projection of a product by `{"_id": 0, "quantity": 0}` in
`Order.calculate_amount`: the snapshot appended to `all_product`. -/
structure ProductSnap where
  id : String
  name : String
  description : String
  price : Int
  deriving Repr, DecidableEq

/-- Drop the `quantity` field, mirroring the Mongo projection. -/
def productSnap (p : Product) : ProductSnap :=
  ⟨p.id, p.name, p.description, p.price⟩

/-- User/admin document (`model.py` `User` and `Admin` share this shape);
`password` stands for the stored argon2 hash, identified with the password
that verifies against it. -/
structure Account where
  id : String
  username : String
  email : String
  address : String
  password : String
  is_admin : Bool
  deriving Repr, DecidableEq

/-- Cart line item (`model.py` `Cartitems`). -/
structure Cartitems where
  product_id : String
  quantity : Int
  deriving Repr, DecidableEq

/-- Cart document (`model.py` `Cart`). -/
structure Cart where
  user_id : String
  items : List Cartitems
  deriving Repr, DecidableEq

/-- `Cart.add_items` from `model.py`: the loop adds `quantity` to every
existing line item whose `product_id` matches; if none matched, a fresh
line item is appended. -/
def Cart.add_items (c : Cart) (product_id : String) (quantity : Int) : Cart :=
  let found := c.items.any (fun it => it.product_id == product_id)
  if found then
    { c with items := c.items.map (fun it =>
        if it.product_id == product_id then
          { it with quantity := it.quantity + quantity }
        else it) }
  else
    { c with items := c.items ++ [⟨product_id, quantity⟩] }

/-- `Cart.remove_item` from `model.py`: drops every line item with the id. -/
def Cart.remove_item (c : Cart) (product_id : String) : Cart :=
  { c with items := c.items.filter (fun it => it.product_id != product_id) }

/-- Order document (`model.py` `Order`); field defaults as in the pydantic model. -/
structure Order where
  id : Option String
  user_id : Option String
  product_ids : Option (List Cartitems)
  all_product : List ProductSnap
  amount : Int
  is_placed : Bool
  deriving Repr, DecidableEq

/-- A fresh `Order()` with the pydantic defaults. -/
def orderInit : Order :=
  { id := none, user_id := none, product_ids := none,
    all_product := [], amount := 0, is_placed := false }

/-- Database state: one list per MongoDB collection. -/
structure DB where
  users : List Account
  admins : List Account
  products : List Product
  carts : List Cart
  orders : List Order
  deriving Repr, DecidableEq

/-- `user_col.find_one({"email": email})` (`database.get_user`). -/
def get_user (db : DB) (email : String) : Option Account :=
  db.users.find? (fun u => u.email == email)

/-- `admin_col.find_one({"email": email})` (`database.get_admin`). -/
def get_admin (db : DB) (email : String) : Option Account :=
  db.admins.find? (fun a => a.email == email)

/-- `user_col.find_one({"id": user_id})` as used in `create_order`. -/
def findUserById (db : DB) (uid : String) : Option Account :=
  db.users.find? (fun u => u.id == uid)

/-- `product_col.find_one({"id": product_id})` as used in `calculate_amount`. -/
def findProduct (db : DB) (pid : String) : Option Product :=
  db.products.find? (fun p => p.id == pid)

/-- `cart_col.find_one({"user_id": user_id})`. -/
def findCart (db : DB) (uid : String) : Option Cart :=
  db.carts.find? (fun c => c.user_id == uid)

/-- `cart_col.delete_one({"user_id": uid})`: removes the first matching cart. -/
def deleteCartList : List Cart → String → List Cart
  | [], _ => []
  | c :: rest, uid => if c.user_id == uid then rest else c :: deleteCartList rest uid

/-- `cart_col.update_one({"user_id": uid}, {"$set": cart}, upsert=True)`:
replaces the first matching cart document, or inserts it if none matches. -/
def upsertCart : List Cart → String → Cart → List Cart
  | [], _, c => [c]
  | k :: rest, uid, c => if k.user_id == uid then c :: rest else k :: upsertCart rest uid c

/-- The `invalid_product_id_excrption` built in `Order.calculate_amount`
(`model.py` line 124): note its status code is 203, not an error status. -/
def invalidProductError : HTTPError :=
  ⟨203, "Invalid Profuct ID Found"⟩

/-- The pricing loop of `Order.calculate_amount` (`model.py` lines 131-143):
walks the snapshotted line items; on the first line item whose product id is
not in the catalog it stops, leaving the partially accumulated order, and
produces the `invalidProductError` value; otherwise it accumulates
`amount += price * quantity` and appends the projected product snapshot to
`all_product`. -/
def priceLoop (db : DB) : Order → List Cartitems → Order × Option HTTPError
  | o, [] => (o, none)
  | o, it :: rest =>
    match findProduct db it.product_id with
    | none => (o, some invalidProductError)
    | some p =>
        priceLoop db
          { o with amount := o.amount + p.price * it.quantity,
                   all_product := o.all_product ++ [productSnap p] } rest

/-- `Order.calculate_amount` (`model.py` lines 121-148).  The guard
`if self.product_ids:` skips the loop when `product_ids` is `None` or the
empty list; running `priceLoop` on `[]` is the identity, so both falsy cases
collapse onto it.  The Python method CATCHES its own `HTTPException` and
RETURNS the exception object instead of raising, so the error is delivered
as the second component of the pair, which the caller is free to ignore. -/
def Order.calculate_amount (o : Order) (db : DB) : Order × Option HTTPError :=
  match o.product_ids with
  | none => (o, none)
  | some items => priceLoop db o items

/-- `Order.add_products_from_cart` (`model.py` lines 97-107): snapshot the
user's cart items into `product_ids`; if no cart exists, leave it as is. -/
def Order.add_products_from_cart (o : Order) (db : DB) (uid : String) : Order :=
  match findCart db uid with
  | some cart => { o with product_ids := some cart.items }
  | none => o

/-- The `invalid_user` exception of `create_order` (`order_route.py` line 30). -/
def invalidUserError : HTTPError :=
  ⟨400, "Invalid User Id given"⟩

/-- `create_order` (`order_route.py` lines 8-49), for an authenticated
`current_user` and with the `uuid4()` of `generate_id` supplied as
`newOrderId`.  The user id is looked up in the `User` collection; if absent,
the 400 `invalid_user` exception is raised — but the surrounding
`except Exception` catches it and re-raises it wrapped as a 500.  Otherwise
the cart is snapshotted, `calculate_amount` runs with its returned error
value DISCARDED (the Python call `new_order.calculate_amount()` ignores the
return), the order is marked placed, inserted into the `Order` collection,
and the user's cart is deleted. -/
def create_order (db : DB) (current_user : Account) (newOrderId : String) :
    Except PyError (String × DB) :=
  match findUserById db current_user.id with
  | none => .error (.httpExc (wrap500 invalidUserError))
  | some _ =>
      let o0 : Order :=
        { orderInit with user_id := some current_user.id, id := some newOrderId }
      let o1 := o0.add_products_from_cart db current_user.id
      let o2 := (o1.calculate_amount db).1
      let o3 := { o2 with is_placed := true }
      .ok ("Order Places Successfully",
           { db with orders := db.orders ++ [o3],
                     carts := deleteCartList db.carts current_user.id })

/-- Token claims `{email, role}` as signed into a JWT by
`create_access_token` (the `exp` claim is left to the abstraction). -/
structure TokenClaims where
  email : String
  role : String
  deriving Repr, DecidableEq

/-- Response body of `POST /auth/token`: `{"access_token": ..., "type": "Bearer"}`. -/
structure TokenResp where
  access_token : TokenClaims
  type : String
  deriving Repr, DecidableEq

/-- Argon2 verification, abstracted: the stored hash is identified with the
unique password that verifies against it. -/
def pwdVerify (plain stored : String) : Bool :=
  plain == stored

/-- The 401 raised by `login` on bad credentials (`auth.py` lines 50-54). -/
def badCredentialsError : HTTPError :=
  ⟨401, "Incorrect email or password"⟩

/-- The admin fallback branch of `login` (`auth.py` lines 44-54): reached
when no user record matched with the given password.  On failure the 401 is
raised inside the `try`, so the blanket `except Exception` re-raises it as a
500 (`wrap500`). -/
def loginAdminBranch (db : DB) (username password : String) :
    Except PyError TokenResp :=
  match get_admin db username with
  | some a =>
      if pwdVerify password a.password then
        .ok ⟨⟨a.email, "admin"⟩, "Bearer"⟩
      else .error (.httpExc (wrap500 badCredentialsError))
  | none => .error (.httpExc (wrap500 badCredentialsError))

/-- `login` (`auth.py` lines 10-56): `POST /auth/token`.  Tries the user
table first (`if user and verify(...)`), then the admin table, else raises
401 — which the `except Exception` wraps into a 500. -/
def login (db : DB) (username password : String) : Except PyError TokenResp :=
  match get_user db username with
  | some u =>
      if pwdVerify password u.password then
        .ok ⟨⟨u.email, "user"⟩, "Bearer"⟩
      else loginAdminBranch db username password
  | none => loginAdminBranch db username password

/-- Observable outcome of `jwt.decode` on the request token, followed by the
dictionary accesses `payload["email"]` and `payload["role"]`: either decoding
raises `JWTError` (`invalid`), or it yields a payload in which each of the
two entries is absent (`none` — the access raises `KeyError`), present but
null (`some none`), or a string (`some (some s)`). -/
inductive TokenInput where
  | invalid
  | payload (emailEntry : Option (Option String)) (roleEntry : Option (Option String))
  deriving Repr, DecidableEq

/-- The `credentials_exception` of `get_current_user` (`database.py` line 159). -/
def credentialsError : HTTPError :=
  ⟨401, "Could not validate credentials"⟩

/-- Role dispatch of `get_current_user` (`database.py` lines 174-185), after
the `try` block: look the principal up by role, 401 if it is missing or the
role is neither `"user"` nor `"admin"`. -/
def roleDispatch (db : DB) (email role : String) : Except PyError Account :=
  if role == "user" then
    match get_user db email with
    | none => .error (.httpExc credentialsError)
    | some u => .ok u
  else if role == "admin" then
    match get_admin db email with
    | none => .error (.httpExc credentialsError)
    | some a => .ok a
  else .error (.httpExc credentialsError)

/-- `get_current_user` (`database.py` lines 116-185).  A `JWTError` from
decoding is caught and turned into the 401 `credentials_exception`.  A
MISSING `email` or `role` key, however, makes `payload["email"]` /
`payload["role"]` raise `KeyError`, which the `except JWTError` clause does
NOT catch: it escapes as an unhandled exception (FastAPI answers 500).  A
present-but-null claim trips the `if email is None or role is None` check
and raises the 401 (an `HTTPException` passes through `except JWTError`).
Then the role dispatch runs. -/
def get_current_user (db : DB) (tok : TokenInput) : Except PyError Account :=
  match tok with
  | .invalid => .error (.httpExc credentialsError)
  | .payload emailEntry roleEntry =>
      match emailEntry with
      | none => .error (.unhandled "KeyError: email")
      | some emailVal =>
          match roleEntry with
          | none => .error (.unhandled "KeyError: role")
          | some roleVal =>
              match emailVal, roleVal with
              | some email, some role => roleDispatch db email role
              | _, _ => .error (.httpExc credentialsError)

/-- The 403 raised by `get_current_admin` (`database.py` lines 209-213). -/
def forbiddenError : HTTPError :=
  ⟨403, "Forbidden! You are not authorized to access this API"⟩

/-- `get_current_admin` (`database.py` lines 188-214): requires the resolved
principal's `is_admin` flag to be truthy, else 403; returns it unchanged. -/
def get_current_admin (current_user : Account) : Except PyError Account :=
  if current_user.is_admin then .ok current_user
  else .error (.httpExc forbiddenError)

/-- `add_item` (`cart_route.py` lines 40-76): `PUT /cart/add`.  Fetches the
user's cart (creating an empty one if absent), calls `Cart.add_items`, and
upserts the result.  No validation is performed on `quantity`. -/
def add_item (db : DB) (current_user : Account) (product_id : String)
    (quantity : Int) : Except PyError (String × DB) :=
  let cart :=
    match findCart db current_user.id with
    | none => Cart.mk current_user.id []
    | some c => c
  let cart := cart.add_items product_id quantity
  .ok ("Item added to cart successfully",
       { db with carts := upsertCart db.carts current_user.id cart })

/-- Spec-side per-line total `product.price * line.quantity`, price taken
from the catalog at lookup time (defaulting to 0 only on the impossible
missing-product case, which validity hypotheses rule out). -/
def lineTotal (db : DB) (it : Cartitems) : Int :=
  ((findProduct db it.product_id).map Product.price).getD 0 * it.quantity

/-- Concrete fixture: a regular user. -/
def exUser : Account :=
  ⟨"u1", "alice", "alice@shop.com", "1 Main St", "pw-alice", false⟩

/-- Concrete fixture: an admin account. -/
def exAdminAcct : Account :=
  ⟨"a1", "root", "admin@shop.com", "2 Main St", "pw-admin", true⟩

/-- Concrete fixture: catalog product priced 100. -/
def prodP1 : Product := ⟨"p1", "Widget", "a widget", 100, 10⟩

/-- Concrete fixture: catalog product priced 50. -/
def prodP2 : Product := ⟨"p2", "Gadget", "a gadget", 50, 10⟩

/-- Concrete fixture: a database with one user, one admin, two products,
no carts and no orders. -/
def dbAuth : DB := ⟨[exUser], [exAdminAcct], [prodP1, prodP2], [], []⟩


/-- C3: the successful half of the login contract holds, but on bad
credentials the 401 raised inside the handler's `try` is caught by the
blanket `except Exception` and re-raised as a 500: the endpoint never
answers 401.  Evaluated at a matching user, a wrong password, and an
unknown email. -/
theorem login_wraps_unauthorized_as_500 :
    login dbAuth "alice@shop.com" "pw-alice" =
      .ok ⟨⟨"alice@shop.com", "user"⟩, "Bearer"⟩ ∧
    login dbAuth "admin@shop.com" "pw-admin" =
      .ok ⟨⟨"admin@shop.com", "admin"⟩, "Bearer"⟩ ∧
    login dbAuth "alice@shop.com" "wrong-pw" =
      .error (.httpExc ⟨500, "401: Incorrect email or password"⟩) ∧
    login dbAuth "nobody@shop.com" "pw" =
      .error (.httpExc ⟨500, "401: Incorrect email or password"⟩) :=
  ⟨rfl, rfl, rfl, rfl⟩

/-- C4: `create_order` for a principal whose id is not in the user store
raises the 400 `invalid_user` exception, but the surrounding
`except Exception` catches it and re-raises it as a 500 whose detail is
`str(e)`; no order is persisted (the handler escapes before `insert_one`). -/
theorem create_order_wraps_invalid_user_as_500 :
    create_order dbAuth ⟨"ghost", "ghost", "ghost@shop.com", "3 Main St", "pw", false⟩
        "o3" =
      .error (.httpExc ⟨500, "400: Invalid User Id given"⟩) :=
  rfl

/-- C5: a token that decodes fine but whose payload lacks the `email` key
(or the `role` key) makes `payload["email"]` / `payload["role"]` raise
`KeyError`, which the `except JWTError` clause does not catch: the request
fails with an unhandled exception (HTTP 500), not with the 401
`credentials_exception`. -/
theorem get_current_user_missing_claim_crashes :
    get_current_user dbAuth (.payload none (some (some "user"))) =
      .error (.unhandled "KeyError: email") ∧
    get_current_user dbAuth (.payload (some (some "alice@shop.com")) none) =
      .error (.unhandled "KeyError: role") :=
  ⟨rfl, rfl⟩

/-- C6: `get_current_user` answers the 401 `credentials_exception` for every
well-decoded token whose role is `"user"` with no matching user record, whose
role is `"admin"` with no matching admin record, or whose role is any other
value (both lookup hypotheses then hold vacuously). -/
theorem resolve_principal_unknown_unauthorized (db : DB) (email role : String)
    (hu : role = "user" → get_user db email = none)
    (ha : role = "admin" → get_admin db email = none) :
    get_current_user db (.payload (some (some email)) (some (some role))) =
      .error (.httpExc credentialsError) := by
  simp only [get_current_user, roleDispatch]
  by_cases h1 : role = "user"
  · simp [h1, hu h1]
  · by_cases h2 : role = "admin"
    · simp [h1, h2, ha h2]
    · simp [h1, h2]

/-- C6 witness: concrete instances for all three branches — unknown user
email, unknown admin email, and an unrecognized role — each answered 401. -/
theorem resolve_principal_unknown_witness :
    get_user dbAuth "ghost@shop.com" = none ∧
    get_admin dbAuth "ghost@shop.com" = none ∧
    get_current_user dbAuth
        (.payload (some (some "ghost@shop.com")) (some (some "user"))) =
      .error (.httpExc credentialsError) ∧
    get_current_user dbAuth
        (.payload (some (some "ghost@shop.com")) (some (some "admin"))) =
      .error (.httpExc credentialsError) ∧
    get_current_user dbAuth
        (.payload (some (some "alice@shop.com")) (some (some "superuser"))) =
      .error (.httpExc credentialsError) :=
  ⟨rfl, rfl,
   resolve_principal_unknown_unauthorized dbAuth "ghost@shop.com" "user"
     (fun _ => rfl) (fun h => absurd h (by decide)),
   resolve_principal_unknown_unauthorized dbAuth "ghost@shop.com" "admin"
     (fun h => absurd h (by decide)) (fun _ => rfl),
   resolve_principal_unknown_unauthorized dbAuth "alice@shop.com" "superuser"
     (fun h => absurd h (by decide)) (fun h => absurd h (by decide))⟩

/-- C7: `get_current_admin` returns an admin principal unchanged and rejects
every resolved non-admin principal with the 403 Forbidden error, whose status
is distinct from the 401 of the `credentials_exception`. -/
theorem require_admin_spec (a : Account) :
    (a.is_admin = true → get_current_admin a = .ok a) ∧
    (a.is_admin = false →
      get_current_admin a = .error (.httpExc forbiddenError)) ∧
    forbiddenError.status = 403 ∧ credentialsError.status = 401 := by
  refine ⟨fun h => ?_, fun h => ?_, rfl, rfl⟩ <;> simp [get_current_admin, h]

/-- C7 witness: the concrete admin account passes through unchanged and the
concrete non-admin account is rejected with the 403. -/
theorem require_admin_witness :
    exAdminAcct.is_admin = true ∧
    get_current_admin exAdminAcct = .ok exAdminAcct ∧
    exUser.is_admin = false ∧
    get_current_admin exUser = .error (.httpExc forbiddenError) :=
  ⟨rfl, (require_admin_spec exAdminAcct).1 rfl, rfl,
   (require_admin_spec exUser).2.1 rfl⟩

/-- When every snapshotted line item resolves in the catalog, the pricing
loop reports no error and adds exactly the sum of the per-line totals to the
running amount. -/
theorem priceLoop_amount_of_valid (db : DB) (items : List Cartitems) (o : Order)
    (hv : ∀ it ∈ items, (findProduct db it.product_id).isSome = true) :
    (priceLoop db o items).1.amount = o.amount + (items.map (lineTotal db)).sum ∧
    (priceLoop db o items).2 = none := by
  induction items generalizing o with
  | nil => simp [priceLoop]
  | cons it rest ih =>
      obtain ⟨p, hp⟩ :=
        Option.isSome_iff_exists.mp (hv it (List.mem_cons_self it rest))
      have hrest : ∀ x ∈ rest, (findProduct db x.product_id).isSome = true :=
        fun x hx => hv x (List.mem_cons_of_mem it hx)
      simp only [priceLoop, hp, List.map_cons, List.sum_cons]
      refine ⟨?_, (ih _ hrest).2⟩
      rw [(ih _ hrest).1]
      simp [lineTotal, hp]
      ring

/-- The pricing loop never touches the `is_placed` flag. -/
theorem priceLoop_is_placed (db : DB) (items : List Cartitems) (o : Order) :
    (priceLoop db o items).1.is_placed = o.is_placed := by
  induction items generalizing o with
  | nil => simp [priceLoop]
  | cons it rest ih =>
      cases h : findProduct db it.product_id with
      | none => simp [priceLoop, h]
      | some p => simp only [priceLoop, h]; exact ih _

/-- C2: whenever `create_order` runs for an existing user whose cart's line
items all reference catalog products, it succeeds and persists exactly one
new order whose `amount` is the sum over the snapshotted line items of
`product.price * line.quantity` at the prices current in the catalog. -/
theorem create_order_amount_invariant (db : DB) (u : Account) (cart : Cart)
    (nid : String)
    (hu : (findUserById db u.id).isSome = true)
    (hc : findCart db u.id = some cart)
    (hv : ∀ it ∈ cart.items, (findProduct db it.product_id).isSome = true) :
    ∃ db2, create_order db u nid = .ok ("Order Places Successfully", db2) ∧
      ∃ o, db2.orders = db.orders ++ [o] ∧
        o.amount = (cart.items.map (lineTotal db)).sum ∧
        o.is_placed = true := by
  obtain ⟨w, hw⟩ := Option.isSome_iff_exists.mp hu
  simp only [create_order, hw, Order.add_products_from_cart, hc,
    Order.calculate_amount]
  refine ⟨_, rfl, _, rfl, ?_, rfl⟩
  show (priceLoop db
      { id := some nid, user_id := some u.id, product_ids := some cart.items,
        all_product := orderInit.all_product, amount := orderInit.amount,
        is_placed := orderInit.is_placed } cart.items).1.amount =
    (cart.items.map (lineTotal db)).sum
  rw [(priceLoop_amount_of_valid db cart.items _ hv).1]
  simp [orderInit]

/-- Concrete fixture: cart `[(p1, 2), (p2, 3)]` of the user. -/
def cartW : Cart := ⟨"u1", [⟨"p1", 2⟩, ⟨"p2", 3⟩]⟩

/-- Concrete fixture: database for the pricing scenario. -/
def dbAmt : DB := ⟨[exUser], [exAdminAcct], [prodP1, prodP2], [cartW], []⟩

/-- C2 witness: with `p1.price = 100`, `p2.price = 50` and cart
`[(p1, 2), (p2, 3)]`, the hypotheses hold, the per-line totals sum to 350,
and the persisted order's amount equals that sum. -/
theorem create_order_amount_witness :
    (findUserById dbAmt exUser.id).isSome = true ∧
    findCart dbAmt exUser.id = some cartW ∧
    (∀ it ∈ cartW.items, (findProduct dbAmt it.product_id).isSome = true) ∧
    (cartW.items.map (lineTotal dbAmt)).sum = 350 ∧
    (∃ db2, create_order dbAmt exUser "o2" =
        .ok ("Order Places Successfully", db2) ∧
      ∃ o, db2.orders = dbAmt.orders ++ [o] ∧
        o.amount = (cartW.items.map (lineTotal dbAmt)).sum ∧
        o.is_placed = true) :=
  ⟨rfl, rfl, by decide, by decide,
   create_order_amount_invariant dbAmt exUser cartW "o2" rfl rfl (by decide)⟩

/-- C9: `create_order` for an existing user who has no cart, or whose cart
has no line items, succeeds and persists an order with `amount = 0`,
`all_product = []` and `is_placed = true`. -/
theorem create_order_empty_cart (db : DB) (u : Account) (nid : String)
    (hu : (findUserById db u.id).isSome = true)
    (hc : findCart db u.id = none ∨
          ∃ cart, findCart db u.id = some cart ∧ cart.items = []) :
    ∃ db2, create_order db u nid = .ok ("Order Places Successfully", db2) ∧
      ∃ o, db2.orders = db.orders ++ [o] ∧
        o.amount = 0 ∧ o.all_product = [] ∧ o.is_placed = true := by
  obtain ⟨w, hw⟩ := Option.isSome_iff_exists.mp hu
  rcases hc with hc | ⟨cart, hc, hitems⟩
  · simp only [create_order, hw, Order.add_products_from_cart, hc,
      Order.calculate_amount, orderInit]
    exact ⟨_, rfl, _, rfl, rfl, rfl, rfl⟩
  · simp only [create_order, hw, Order.add_products_from_cart, hc,
      Order.calculate_amount, hitems, priceLoop, orderInit]
    exact ⟨_, rfl, _, rfl, rfl, rfl, rfl⟩

/-- Concrete fixture: database with the user but no cart document. -/
def dbNoCart : DB := ⟨[exUser], [exAdminAcct], [prodP1, prodP2], [], []⟩

/-- C9 witness: concrete run with no cart stored for the user. -/
theorem create_order_empty_cart_witness :
    (findUserById dbNoCart exUser.id).isSome = true ∧
    findCart dbNoCart exUser.id = none ∧
    (∃ db2, create_order dbNoCart exUser "o4" =
        .ok ("Order Places Successfully", db2) ∧
      ∃ o, db2.orders = dbNoCart.orders ++ [o] ∧
        o.amount = 0 ∧ o.all_product = [] ∧ o.is_placed = true) :=
  ⟨rfl, rfl, create_order_empty_cart dbNoCart exUser "o4" rfl (Or.inl rfl)⟩

/-- Mapping the quantity-bump function over line items none of which carry
the bumped product id changes nothing. -/
theorem map_bump_of_no_match (pid : String) (q : Int) (l : List Cartitems)
    (h : ∀ it ∈ l, it.product_id ≠ pid) :
    l.map (fun it => if it.product_id = pid then
      { it with quantity := it.quantity + q } else it) = l := by
  induction l with
  | nil => rfl
  | cons x xs ih =>
      simp only [List.map_cons, if_neg (h x (List.mem_cons_self x xs)),
        ih (fun it hit => h it (List.mem_cons_of_mem x hit))]

/-- C8 counterexample: on a cart that ALREADY holds a line item for the
product (here with quantity 1), adding quantities 2 and 3 leaves a single
line item of quantity 6, not `q1 + q2 = 5`: the claim's universal
quantification over all carts fails. -/
theorem add_items_repeat_counterexample :
    (((Cart.mk "u1" [⟨"p1", 1⟩]).add_items "p1" 2).add_items "p1" 3).items =
      [⟨"p1", 6⟩] ∧ ¬ ((6 : Int) = 2 + 3) := by decide

/-- C8 (amended): on any cart with no existing line item for `pid`, adding
`pid` twice with quantities `q1`, `q2` appends exactly one line item
`(pid, q1 + q2)`; the line items for every other product id are unchanged. -/
theorem add_items_twice_fresh (c : Cart) (pid : String) (q1 q2 : Int)
    (h : ∀ it ∈ c.items, it.product_id ≠ pid) :
    ((c.add_items pid q1).add_items pid q2).items =
      c.items ++ [⟨pid, q1 + q2⟩] ∧
    (((c.add_items pid q1).add_items pid q2).items.filter
      (fun it => it.product_id == pid)) = [⟨pid, q1 + q2⟩] ∧
    (((c.add_items pid q1).add_items pid q2).items.filter
      (fun it => it.product_id != pid)) = c.items := by
  have hfound : c.items.any (fun it => it.product_id == pid) = false := by
    rw [List.any_eq_false]; intro x hx; simpa using h x hx
  have h1 : c.add_items pid q1 = { c with items := c.items ++ [⟨pid, q1⟩] } := by
    simp [Cart.add_items, hfound]
  have hmain : ((c.add_items pid q1).add_items pid q2).items =
      c.items ++ [⟨pid, q1 + q2⟩] := by
    rw [h1]
    simp [Cart.add_items, List.any_append, hfound,
      map_bump_of_no_match pid q2 c.items h]
  refine ⟨hmain, ?_, ?_⟩
  · rw [hmain, List.filter_append]
    have hnil : c.items.filter (fun it => it.product_id == pid) = [] := by
      rw [List.filter_eq_nil_iff]
      intro a ha; simpa using h a ha
    simp [hnil]
  · rw [hmain, List.filter_append]
    have hself : c.items.filter (fun it => it.product_id != pid) = c.items :=
      List.filter_eq_self.mpr (fun a ha => by simpa using h a ha)
    simp [hself]

/-- C8 witness: a cart holding only an unrelated product `q7`; two adds of
`p1` with quantities 2 and 3 merge into the single new line item `(p1, 5)`. -/
theorem add_items_twice_fresh_witness :
    (∀ it ∈ (Cart.mk "u2" [⟨"q7", 4⟩]).items, it.product_id ≠ "p1") ∧
    (((Cart.mk "u2" [⟨"q7", 4⟩]).add_items "p1" 2).add_items "p1" 3).items =
      (Cart.mk "u2" [⟨"q7", 4⟩]).items ++ [⟨"p1", 2 + 3⟩] :=
  ⟨by decide,
   (add_items_twice_fresh (Cart.mk "u2" [⟨"q7", 4⟩]) "p1" 2 3 (by decide)).1⟩

/-- C10: the cart-add path validates nothing about `quantity`: the endpoint
succeeds for every integer, a first add stores the quantity unchanged, a
second add accumulates it, and (concretely) adding -5 for a user with no
cart leaves a stored line item with quantity -5. -/
theorem add_item_no_quantity_validation :
    (∀ (db : DB) (u : Account) (pid : String) (q : Int),
      ∃ db2, add_item db u pid q = .ok ("Item added to cart successfully", db2)) ∧
    (∀ (uid pid : String) (q : Int),
      ((Cart.mk uid []).add_items pid q).items = [⟨pid, q⟩]) ∧
    (∀ (uid pid : String) (q1 q2 : Int),
      (((Cart.mk uid []).add_items pid q1).add_items pid q2).items =
        [⟨pid, q1 + q2⟩]) ∧
    add_item dbNoCart exUser "p1" (-5) =
      .ok ("Item added to cart successfully",
        { dbNoCart with carts := [⟨"u1", [⟨"p1", -5⟩]⟩] }) := by
  refine ⟨fun db u pid q => ⟨_, rfl⟩,
    fun uid pid q => by simp [Cart.add_items],
    fun uid pid q1 q2 => by simp [Cart.add_items],
    rfl⟩

/-- Concrete fixture: cart mixing the valid product `p1` and a dangling
product id `pX` absent from the catalog. -/
def cartBad : Cart := ⟨"u1", [⟨"p1", 2⟩, ⟨"pX", 1⟩]⟩

/-- Concrete fixture: database for the invalid-product scenario; the catalog
holds only `p1`. -/
def dbBad : DB := ⟨[exUser], [exAdminAcct], [prodP1], [cartBad], []⟩

/-- The order state right after `create_order` snapshots `cartBad` on
`dbBad`, before the pricing pass runs. -/
def ordBadSnapshot : Order :=
  { orderInit with
    user_id := some "u1", id := some "o9",
    product_ids := some cartBad.items }

/-- The order that `create_order` persists on `dbBad`: placed, with the
partial amount 200 accumulated before the dangling id was hit. -/
def ordBadPersisted : Order :=
  { id := some "o9", user_id := some "u1", product_ids := some cartBad.items,
    all_product := [productSnap prodP1], amount := 200, is_placed := true }

/-- C1: the pricing step does detect the dangling product id — it produces
the `invalid_product_id_excrption` value (whose status is even 203, a
success code) — but `calculate_amount` returns the exception instead of
raising it, and `create_order` discards the returned value.  The operation
is therefore not abandoned: the order is persisted with a partial amount,
marked placed, the cart is deleted, and the client gets the success body. -/
theorem create_order_swallows_invalid_product :
    ((ordBadSnapshot.calculate_amount dbBad).2 = some invalidProductError) ∧
    create_order dbBad exUser "o9" =
      .ok ("Order Places Successfully",
           { dbBad with orders := [ordBadPersisted], carts := [] }) ∧
    ordBadPersisted.is_placed = true ∧ ordBadPersisted.amount = 200 :=
  ⟨rfl, rfl, rfl, rfl⟩
